import Mathlib

/-!
Shallow embedding of `scripts/subscription_cron.py`: the recurring
subscription billing engine (repository queries and writes, Netopia gateway
client, billing orchestrator, job runner), together with proofs of the
specification's claims about it.

Modelling conventions:
* Time is an `Int` counted in hours (the source mixes `timedelta(days=…)`
  with SQL `INTERVAL '24 hours'`; one hour is the finest granularity used).
* Money amounts are opaque `Int` values (the claims never compute on them).
* The database is explicit state (`DB`); each repository method of
  `DatabaseManager` becomes a pure function on `DB`.
* Python exceptions raised during one item's processing are the `PyError`
  type; the `aiohttp` call outcome is the `HttpBehavior` oracle parameter.
* Log messages are reproduced as the source's f-strings (emoji prefixes of
  the source's log lines are dropped; they are mojibake bytes in the file).
-/

namespace SubscriptionCron

/-- Model of Python `timedelta(days=d)` measured in hours. -/
def timedeltaDays (d : Int) : Int := d * 24

/-- Row of the `subscription_tiers` table (columns used by the queries). -/
structure Tier where
  id : String
  price : Int
  currency : String
  interval : String
  name : String
deriving DecidableEq

/-- Row of the `subscriptions` table (columns read or written by the script). -/
structure Subscription where
  id : String
  user_id : String
  tier_id : String
  status : String
  netopia_token : Option String
  auto_renew : Bool
  current_period_start : Int
  current_period_end : Int
  trial_end : Option Int
  cancel_effective_at : Option Int
  updated_at : Int
deriving DecidableEq

/-- The joined dict produced by `SELECT s.*, st.price, st.currency,
st.interval, st.name as tier_name FROM subscriptions s JOIN
subscription_tiers st ON s.tier_id = st.id`. -/
structure SubscriptionRow where
  id : String
  user_id : String
  tier_id : String
  status : String
  netopia_token : Option String
  auto_renew : Bool
  current_period_start : Int
  current_period_end : Int
  trial_end : Option Int
  price : Int
  currency : String
  interval : String
  tier_name : String
deriving DecidableEq

/-- The fields of the `get_failed_payments` result row that `_retry_payment`
reads (`order_id`, `subscription_id`, `retry_count`; `created_at` drives the
look-back filter).  In the `SELECT pl.*, o.*, s.*` dict, `order_id` and
`retry_count` come from `payment_logs` (no other table has those columns);
`subscription_id` is overwritten by the joined `orders` row. -/
structure FailedPaymentRow where
  order_id : String
  subscription_id : Option String
  retry_count : Int
  created_at : Int
deriving DecidableEq

/-- The JSON body returned by the Netopia payments endpoint; the script only
reads the keys `message` (on errors) and `netopia_order_id` (on success). -/
structure ResponseBody where
  netopia_order_id : Option String
  message : Option String
deriving DecidableEq

/-- Python exception classes that can escape `create_recurring_payment`:
`Exception(msg)` raised by the non-200 branch, `asyncio.TimeoutError` from
the 30-second `aiohttp` timeout, and `aiohttp` connection errors. -/
inductive PyError where
  | exception (msg : String)
  | timeoutError
  | connectionError
deriving DecidableEq

/-- Model of Python `str(e)`: the message of a plain `Exception`; the
transport/timeout exception classes carry no message text. -/
def pyStr : PyError → String
  | .exception m => m
  | .timeoutError => ""
  | .connectionError => ""

/-- Behaviour of one outbound HTTP POST to the gateway, as seen by the
client: either the request completes after `seconds` with an HTTP status and
a JSON body, or it fails at the transport level. -/
inductive HttpBehavior where
  | completes (seconds : Int) (status : Nat) (body : ResponseBody)
  | transportError
deriving DecidableEq

/-- The `raw_payload` dicts the script stores into `payment_logs`. -/
inductive RawPayload where
  | empty
  | cancelReason (reason : String)
  | gatewayResult (body : ResponseBody)
  | originalPayment (p : FailedPaymentRow)
  | subscriptionDump (s : SubscriptionRow)
deriving DecidableEq

/-- The `event_data` dict passed to `log_payment_event`; absent keys are
`none`, matching the `event_data.get(…)` reads. -/
structure EventData where
  order_id : Option String := none
  subscription_id : Option String := none
  event_type : String
  netopia_order_id : Option String := none
  amount : Option Int := none
  currency : Option String := none
  status : Option String := none
  raw_payload : RawPayload := .empty
  retry_count : Option Int := none
  error_message : Option String := none
deriving DecidableEq

/-- The metadata JSON stored on a renewal order. -/
structure OrderMetadata where
  subscription_id : String
  tier_name : String
  renewal : Bool
  auto_renewal : Bool
deriving DecidableEq

/-- Row of the `orders` table (columns used by the script). -/
structure Order where
  id : String
  user_id : String
  subscription_id : Option String
  amount : Int
  currency : String
  status : String
  netopia_order_id : Option String
  metadata : Option OrderMetadata
  created_at : Int
  updated_at : Int
deriving DecidableEq

/-- Row of the append-only `payment_logs` table. -/
structure PaymentLog where
  order_id : Option String
  subscription_id : Option String
  event_type : String
  netopia_order_id : Option String
  amount : Option Int
  currency : Option String
  status : Option String
  raw_payload : RawPayload
  retry_count : Int
  error_message : Option String
  created_at : Int
deriving DecidableEq

/-- Row of the `profiles` table (columns touched by `cancel_subscription`). -/
structure Profile where
  id : String
  subscription_tier : String
  updated_at : Int
deriving DecidableEq

/-- The database state: the five tables the script touches plus the serial
counter that yields `RETURNING id` values for new orders. -/
structure DB where
  subscriptions : List Subscription
  tiers : List Tier
  orders : List Order
  payment_logs : List PaymentLog
  profiles : List Profile
  nextOrderId : Nat
deriving DecidableEq

/-- Performs the `JOIN subscription_tiers st ON s.tier_id = st.id` for one
subscription row; an inner join drops rows whose tier id does not resolve. -/
def joinTier (tiers : List Tier) (s : Subscription) : Option SubscriptionRow :=
  match tiers.find? (fun t => t.id == s.tier_id) with
  | none => none
  | some t => some {
      id := s.id, user_id := s.user_id, tier_id := s.tier_id,
      status := s.status, netopia_token := s.netopia_token,
      auto_renew := s.auto_renew,
      current_period_start := s.current_period_start,
      current_period_end := s.current_period_end, trial_end := s.trial_end,
      price := t.price, currency := t.currency, interval := t.interval,
      tier_name := t.name }

/-- Ordering used by `ORDER BY s.current_period_end ASC`. -/
def dueLE (a b : SubscriptionRow) : Prop :=
  a.current_period_end ≤ b.current_period_end

instance : DecidableRel dueLE :=
  fun a b => inferInstanceAs (Decidable (a.current_period_end ≤ b.current_period_end))

instance : IsTotal SubscriptionRow dueLE := ⟨fun a b => Int.le_total _ _⟩

instance : IsTrans SubscriptionRow dueLE := ⟨fun _ _ _ h h2 => le_trans h h2⟩

/-- Ordering used by `ORDER BY s.trial_end ASC` (all selected rows have a
non-null `trial_end`). -/
def trialLE (a b : SubscriptionRow) : Prop :=
  a.trial_end.getD 0 ≤ b.trial_end.getD 0

instance : DecidableRel trialLE :=
  fun a b => inferInstanceAs (Decidable (a.trial_end.getD 0 ≤ b.trial_end.getD 0))

instance : IsTotal SubscriptionRow trialLE := ⟨fun a b => Int.le_total _ _⟩

instance : IsTrans SubscriptionRow trialLE := ⟨fun _ _ _ h h2 => le_trans h h2⟩

/-- Ordering used by `ORDER BY pl.created_at ASC`. -/
def retryLE (a b : FailedPaymentRow) : Prop := a.created_at ≤ b.created_at

instance : DecidableRel retryLE :=
  fun a b => inferInstanceAs (Decidable (a.created_at ≤ b.created_at))

/-- The `WHERE` clause of `get_due_subscriptions`. -/
def duePred (now : Int) (r : SubscriptionRow) : Bool :=
  r.status == "ACTIVE" && r.auto_renew && decide (r.current_period_end ≤ now)
    && r.netopia_token.isSome

/-- `DatabaseManager.get_due_subscriptions`: active auto-renewing
subscriptions whose period has ended and that have a stored token, joined
with their tier, oldest period end first. -/
def get_due_subscriptions (db : DB) (now : Int) : List SubscriptionRow :=
  List.insertionSort dueLE
    ((db.subscriptions.filterMap (joinTier db.tiers)).filter (duePred now))

/-- The `WHERE` clause of `get_trial_subscriptions` (`trial_end <= NOW()` is
false in SQL when `trial_end` is NULL). -/
def trialPred (now : Int) (r : SubscriptionRow) : Bool :=
  r.status == "TRIALING" &&
    (match r.trial_end with
     | some t => decide (t ≤ now)
     | none => false)

/-- `DatabaseManager.get_trial_subscriptions`: trialing subscriptions whose
trial has ended, joined with their tier, oldest trial end first. -/
def get_trial_subscriptions (db : DB) (now : Int) : List SubscriptionRow :=
  List.insertionSort trialLE
    ((db.subscriptions.filterMap (joinTier db.tiers)).filter (trialPred now))

/-- `DatabaseManager.get_failed_payments`: `PAYMENT_FAILED` log rows with
`retry_count` below the configured maximum, created within the trailing
24 hours, inner-joined with their order, oldest first. -/
def get_failed_payments (db : DB) (maxAttempts : Int) (now : Int) :
    List FailedPaymentRow :=
  List.insertionSort retryLE
    (db.payment_logs.filterMap (fun pl =>
      if pl.event_type == "PAYMENT_FAILED" && decide (pl.retry_count < maxAttempts)
          && decide (now - 24 ≤ pl.created_at) then
        match pl.order_id with
        | none => none
        | some oid =>
          match db.orders.find? (fun o => o.id == oid) with
          | none => none
          | some o => some { order_id := oid, subscription_id := o.subscription_id,
                             retry_count := pl.retry_count, created_at := pl.created_at }
      else none))

/-- The string form of the serial id the `INSERT … RETURNING id` yields for
the next order row. -/
def nextOrderIdStr (db : DB) : String := "order_" ++ toString db.nextOrderId

/-- `DatabaseManager.create_renewal_order`: inserts a `PENDING` order for
the renewal attempt and returns its id. -/
def create_renewal_order (db : DB) (now : Int) (sub : SubscriptionRow)
    (amount : Int) : String × DB :=
  let oid := nextOrderIdStr db
  (oid,
   { db with
       orders := db.orders ++ [{
         id := oid, user_id := sub.user_id, subscription_id := some sub.id,
         amount := amount, currency := sub.currency, status := "PENDING",
         netopia_order_id := none,
         metadata := some { subscription_id := sub.id, tier_name := sub.tier_name,
                            renewal := true, auto_renewal := true },
         created_at := now, updated_at := now }],
       nextOrderId := db.nextOrderId + 1 })

/-- `DatabaseManager.update_subscription_period`: sets
`current_period_start = NOW()`, `current_period_end = $2`, `updated_at =
NOW()` on the row with the given id, and touches nothing else. -/
def update_subscription_period (db : DB) (now : Int) (sub_id : String)
    (new_period_end : Int) : DB :=
  { db with
      subscriptions := db.subscriptions.map (fun s =>
        if s.id == sub_id then
          { s with current_period_start := now,
                   current_period_end := new_period_end, updated_at := now }
        else s) }

/-- The `payment_logs` row built from one `event_data` dict. -/
def logRowOf (now : Int) (e : EventData) : PaymentLog :=
  { order_id := e.order_id, subscription_id := e.subscription_id,
    event_type := e.event_type, netopia_order_id := e.netopia_order_id,
    amount := e.amount, currency := e.currency, status := e.status,
    raw_payload := e.raw_payload, retry_count := e.retry_count.getD 0,
    error_message := e.error_message, created_at := now }

/-- `DatabaseManager.log_payment_event`: appends one immutable row to
`payment_logs` (`retry_count` defaults to 0 as in `event_data.get`). -/
def log_payment_event (db : DB) (now : Int) (e : EventData) : DB :=
  { db with payment_logs := db.payment_logs ++ [logRowOf now e] }

/-- `DatabaseManager.update_order_status`: sets status, gateway order id and
`updated_at` on the order row with the given id. -/
def update_order_status (db : DB) (now : Int) (order_id : String)
    (status : String) (netopia_order_id : Option String) : DB :=
  { db with
      orders := db.orders.map (fun o =>
        if o.id == order_id then
          { o with status := status, netopia_order_id := netopia_order_id,
                   updated_at := now }
        else o) }

/-- The `SUBSCRIPTION_CANCELED` event `cancel_subscription` appends; the
reason travels in the raw payload dict `{"reason": …, "auto_cancel": True}`. -/
def cancelEventData (sub_id reason : String) : EventData :=
  { subscription_id := some sub_id, event_type := "SUBSCRIPTION_CANCELED",
    status := some "CANCELED", raw_payload := .cancelReason reason }

/-- `DatabaseManager.cancel_subscription`: marks the subscription
`CANCELED`, downgrades the owning user's profile to the `free` tier (the
profile is located through `SELECT user_id FROM subscriptions WHERE id=$1`),
and appends a `SUBSCRIPTION_CANCELED` payment event with the reason. -/
def cancel_subscription (db : DB) (now : Int) (sub_id : String)
    (reason : String) : DB :=
  let db1 : DB :=
    { db with
        subscriptions := db.subscriptions.map (fun s =>
          if s.id == sub_id then
            { s with status := "CANCELED", cancel_effective_at := some now,
                     updated_at := now }
          else s) }
  let db2 : DB :=
    match db1.subscriptions.find? (fun s => s.id == sub_id) with
    | none => db1
    | some s =>
      { db1 with
          profiles := db1.profiles.map (fun p =>
            if p.id == s.user_id then
              { p with subscription_tier := "free", updated_at := now }
            else p) }
  log_payment_event db2 now (cancelEventData sub_id reason)

/-- The fixed `timeout=30` (seconds) passed to `session.post`. -/
def netopiaTimeoutSeconds : Int := 30

/-- `NetopiaClient.create_recurring_payment`, as a function of the HTTP
call's behaviour.  Payload construction (encryption, HMAC signature) does
not influence the returned classification and is elided.  A transport
failure raises a connection error; a request exceeding the 30-second
timeout raises `asyncio.TimeoutError`; a non-200 status raises
`Exception("Netopia API error: " + message)` with the provider's `message`
field (`"Unknown error"` when absent); a 200 response returns the raw JSON
body.  The trailing `except` block re-raises the exception unchanged. -/
def create_recurring_payment (b : HttpBehavior) : Except PyError ResponseBody :=
  match b with
  | .transportError => .error .connectionError
  | .completes seconds status body =>
    if netopiaTimeoutSeconds < seconds then .error .timeoutError
    else if status != 200 then
      .error (.exception ("Netopia API error: " ++ body.message.getD "Unknown error"))
    else .ok body

instance {ε α : Type} [DecidableEq ε] [DecidableEq α] : DecidableEq (Except ε α) :=
  fun a b =>
    match a, b with
    | Except.ok x, Except.ok y =>
      if h : x = y then .isTrue (congrArg Except.ok h)
      else .isFalse (fun hc => h (Except.ok.inj hc))
    | Except.error x, Except.error y =>
      if h : x = y then .isTrue (congrArg Except.error h)
      else .isFalse (fun hc => h (Except.error.inj hc))
    | Except.ok _, Except.error _ => .isFalse (fun hc => Except.noConfusion hc)
    | Except.error _, Except.ok _ => .isFalse (fun hc => Except.noConfusion hc)

/-- One repository/gateway action performed while processing an item; the
trace of these actions orders the side effects of a run. -/
inductive Action where
  | createOrder (order_id : String)
  | gatewayCharge (order_id : String) (result : Except PyError ResponseBody)
  | updateOrder (order_id : String) (status : String)
  | advancePeriod (sub_id : String) (new_period_end : Int)
  | appendEvent (e : EventData)
  | cancelWrite (sub_id : String)
deriving DecidableEq

/-- State threaded through `SubscriptionCronManager`: the database, the
ordered trace of repository/gateway actions, and the emitted log lines. -/
structure St where
  db : DB
  trace : List Action
  logs : List String
deriving DecidableEq

/-- Appends one log line (`logger.info` / `logger.error`). -/
def logLine (st : St) (m : String) : St := { st with logs := st.logs ++ [m] }

/-- Wrapper for `log_payment_event` that also records the action. -/
def appendEventSt (st : St) (now : Int) (e : EventData) : St :=
  { st with db := log_payment_event st.db now e,
            trace := st.trace ++ [.appendEvent e] }

/-- Wrapper for `cancel_subscription` that also records its two writes. -/
def cancelSubscriptionSt (st : St) (now : Int) (sub_id reason : String) : St :=
  { st with db := cancel_subscription st.db now sub_id reason,
            trace := st.trace ++ [.cancelWrite sub_id,
                                  .appendEvent (cancelEventData sub_id reason)] }

/-- Wrapper for `create_renewal_order` that also records the insert. -/
def createOrderSt (st : St) (now : Int) (sub : SubscriptionRow)
    (amount : Int) : String × St :=
  let p := create_renewal_order st.db now sub amount
  (p.1, { st with db := p.2, trace := st.trace ++ [.createOrder p.1] })

/-- Python truthiness of `subscription.get("netopia_token")`: `None` and the
empty string are both falsy. -/
def pyFalsy (t : Option String) : Bool :=
  match t with
  | none => true
  | some s => s == ""

/-- The period arithmetic of `_process_subscription_renewal`: 30 days for
`MONTHLY`, 365 for `YEARLY`, and the `MONTHLY` length for anything else. -/
def newPeriodEnd (now : Int) (interval : String) : Int :=
  if interval == "MONTHLY" then now + timedeltaDays 30
  else if interval == "YEARLY" then now + timedeltaDays 365
  else now + timedeltaDays 30

/-- The `AUTO_RENEWAL_ATTEMPTED` / `SUCCESS` event logged after a renewal
charge is accepted. -/
def renewalSuccessEvent (oid : String) (sub : SubscriptionRow)
    (body : ResponseBody) : EventData :=
  { order_id := some oid, subscription_id := some sub.id,
    event_type := "AUTO_RENEWAL_ATTEMPTED",
    netopia_order_id := body.netopia_order_id, amount := some sub.price,
    currency := some sub.currency, status := some "SUCCESS",
    raw_payload := .gatewayResult body }

/-- The `AUTO_RENEWAL_FAILED` / `FAILED` event `process_recurring_billing`
logs when one item's renewal raised. -/
def renewalFailedEvent (sub : SubscriptionRow) (e : PyError) : EventData :=
  { subscription_id := some sub.id, event_type := "AUTO_RENEWAL_FAILED",
    status := some "FAILED", error_message := some (pyStr e),
    raw_payload := .subscriptionDump sub }

/-- `SubscriptionCronManager._process_subscription_renewal`.  `gw` gives the
HTTP behaviour of the gateway call keyed by the order id being charged.
Returns the new state plus `some e` when the Python exception `e` escaped
(database writes already performed are kept: each is its own transaction). -/
def process_subscription_renewal (st : St) (now : Int) (sub : SubscriptionRow)
    (gw : String → HttpBehavior) : St × Option PyError :=
  let st0 := logLine st ("Processing renewal for subscription " ++ sub.id)
  let r := createOrderSt st0 now sub sub.price
  let oid := r.1
  let st1 := logLine r.2 ("Created renewal order " ++ oid)
  match create_recurring_payment (gw oid) with
  | .error e =>
    (logLine { st1 with trace := st1.trace ++ [.gatewayCharge oid (.error e)] }
      ("Failed to process renewal for subscription " ++ sub.id ++ ": " ++ pyStr e),
     some e)
  | .ok body =>
    let st2 : St := { st1 with trace := st1.trace ++ [.gatewayCharge oid (.ok body)] }
    let st3 : St :=
      { st2 with db := update_order_status st2.db now oid "PROCESSING" body.netopia_order_id,
                 trace := st2.trace ++ [.updateOrder oid "PROCESSING"] }
    let newEnd := newPeriodEnd now sub.interval
    let st4 : St :=
      { st3 with db := update_subscription_period st3.db now sub.id newEnd,
                 trace := st3.trace ++ [.advancePeriod sub.id newEnd] }
    let st5 := appendEventSt st4 now (renewalSuccessEvent oid sub body)
    (logLine st5 ("Successfully processed renewal for subscription " ++ sub.id), none)

/-- One iteration of the `process_recurring_billing` loop: the renewal is
attempted and any exception is caught, logged, and converted into an
`AUTO_RENEWAL_FAILED` payment event; the loop then continues. -/
def billingStep (now : Int) (gw : String → HttpBehavior) (st : St)
    (sub : SubscriptionRow) : St :=
  let r := process_subscription_renewal st now sub gw
  match r.2 with
  | none => r.1
  | some e =>
    let st1 := logLine r.1
      ("Failed to process renewal for subscription " ++ sub.id ++ ": " ++ pyStr e)
    appendEventSt st1 now (renewalFailedEvent sub e)

/-- `SubscriptionCronManager.process_recurring_billing` (note `logLine`
does not touch the database, so the work queue is read from `st.db`). -/
def process_recurring_billing (st : St) (now : Int)
    (gw : String → HttpBehavior) : St :=
  (get_due_subscriptions st.db now).foldl (billingStep now gw)
    (logLine (logLine st "Processing recurring billing...")
      ("Found " ++ toString (get_due_subscriptions st.db now).length ++
        " subscriptions due for renewal"))

/-- `SubscriptionCronManager._process_trial_expiration`: cancel immediately
when no token is stored; otherwise run the shared renewal path and cancel
with the failure embedded in the reason if it raised. -/
def process_trial_expiration (st : St) (now : Int) (sub : SubscriptionRow)
    (gw : String → HttpBehavior) : St :=
  let st0 := logLine st ("Processing trial expiration for subscription " ++ sub.id)
  if pyFalsy sub.netopia_token then
    let st1 := cancelSubscriptionSt st0 now sub.id "Trial expired - no payment method"
    logLine st1 ("Cancelled subscription " ++ sub.id ++ " - no payment method")
  else
    let r := process_subscription_renewal st0 now sub gw
    match r.2 with
    | none =>
      logLine r.1 ("Successfully charged trial expiration for subscription " ++ sub.id)
    | some e =>
      let st1 := cancelSubscriptionSt r.1 now sub.id
        ("Trial expired - charge failed: " ++ pyStr e)
      logLine st1 ("Cancelled subscription " ++ sub.id ++ " - charge failed")

/-- `SubscriptionCronManager.process_trial_periods`. -/
def process_trial_periods (st : St) (now : Int)
    (gw : String → HttpBehavior) : St :=
  (get_trial_subscriptions st.db now).foldl
    (fun acc sub => process_trial_expiration acc now sub gw)
    (logLine (logLine st "Processing trial period expirations...")
      ("Found " ++ toString (get_trial_subscriptions st.db now).length ++
        " trial subscriptions to process"))

/-- The `PAYMENT_RETRY` / `RETRYING` event `_retry_payment` appends; the
incremented count only travels inside this new log row. -/
def retryEventData (p : FailedPaymentRow) : EventData :=
  { order_id := some p.order_id, subscription_id := p.subscription_id,
    event_type := "PAYMENT_RETRY", retry_count := some (p.retry_count + 1),
    status := some "RETRYING", raw_payload := .originalPayment p }

/-- `SubscriptionCronManager._retry_payment`: logs the attempt and appends a
`PAYMENT_RETRY` event.  The source's comment says "Here you would implement
the actual retry logic; for now, we'll just log the attempt": no gateway
call is made and the original failed event row is not updated. -/
def retry_payment (st : St) (now : Int) (p : FailedPaymentRow) : St :=
  let n := p.retry_count + 1
  let st0 := logLine st
    ("Retrying payment " ++ p.order_id ++ " (attempt " ++ toString n ++ ")")
  let st1 := appendEventSt st0 now (retryEventData p)
  logLine st1 ("Retry attempt " ++ toString n ++ " for payment " ++ p.order_id)

/-- `SubscriptionCronManager.process_payment_retries`. -/
def process_payment_retries (st : St) (now : Int) (maxAttempts : Int) : St :=
  (get_failed_payments st.db maxAttempts now).foldl
    (fun acc p => retry_payment acc now p)
    (logLine (logLine st "Processing payment retries...")
      ("Found " ++ toString (get_failed_payments st.db maxAttempts now).length ++
        " failed payments to retry"))

/-- `SubscriptionCronManager.run_all_jobs`: billing, then trials, then
retries, then a fixed completion log line.  Each job swallows its own
exceptions, so the sequence always runs to the end. -/
def run_all_jobs (st : St) (now : Int) (gw : String → HttpBehavior)
    (maxAttempts : Int) : St :=
  logLine
    (process_payment_retries
      (process_trial_periods
        (process_recurring_billing
          (logLine st "Starting subscription cron jobs...") now gw)
        now gw)
      now maxAttempts)
    "All cron jobs completed successfully"

/-- Looks up a subscription row by id (first match, as `WHERE id = $1`
against a unique key). -/
def getSub (db : DB) (sub_id : String) : Option Subscription :=
  db.subscriptions.find? (fun s => s.id == sub_id)

/-- Looks up a profile row by user id. -/
def getProfile (db : DB) (user_id : String) : Option Profile :=
  db.profiles.find? (fun p => p.id == user_id)

/-! Projection lemmas: which tables each repository write leaves alone. -/

@[simp]
lemma create_renewal_order_subscriptions (db : DB) (now : Int)
    (sub : SubscriptionRow) (a : Int) :
    ((create_renewal_order db now sub a).2).subscriptions = db.subscriptions := rfl

@[simp]
lemma create_renewal_order_payment_logs (db : DB) (now : Int)
    (sub : SubscriptionRow) (a : Int) :
    ((create_renewal_order db now sub a).2).payment_logs = db.payment_logs := rfl

@[simp]
lemma create_renewal_order_profiles (db : DB) (now : Int)
    (sub : SubscriptionRow) (a : Int) :
    ((create_renewal_order db now sub a).2).profiles = db.profiles := rfl

@[simp]
lemma create_renewal_order_tiers (db : DB) (now : Int)
    (sub : SubscriptionRow) (a : Int) :
    ((create_renewal_order db now sub a).2).tiers = db.tiers := rfl

@[simp]
lemma create_renewal_order_fst (db : DB) (now : Int)
    (sub : SubscriptionRow) (a : Int) :
    (create_renewal_order db now sub a).1 = nextOrderIdStr db := rfl

@[simp]
lemma update_order_status_subscriptions (db : DB) (now : Int) (oid st : String)
    (noid : Option String) :
    (update_order_status db now oid st noid).subscriptions = db.subscriptions := rfl

@[simp]
lemma update_order_status_payment_logs (db : DB) (now : Int) (oid st : String)
    (noid : Option String) :
    (update_order_status db now oid st noid).payment_logs = db.payment_logs := rfl

@[simp]
lemma update_order_status_profiles (db : DB) (now : Int) (oid st : String)
    (noid : Option String) :
    (update_order_status db now oid st noid).profiles = db.profiles := rfl

@[simp]
lemma update_order_status_tiers (db : DB) (now : Int) (oid st : String)
    (noid : Option String) :
    (update_order_status db now oid st noid).tiers = db.tiers := rfl

@[simp]
lemma update_subscription_period_payment_logs (db : DB) (now : Int)
    (i : String) (e : Int) :
    (update_subscription_period db now i e).payment_logs = db.payment_logs := rfl

@[simp]
lemma update_subscription_period_orders (db : DB) (now : Int)
    (i : String) (e : Int) :
    (update_subscription_period db now i e).orders = db.orders := rfl

@[simp]
lemma update_subscription_period_profiles (db : DB) (now : Int)
    (i : String) (e : Int) :
    (update_subscription_period db now i e).profiles = db.profiles := rfl

@[simp]
lemma update_subscription_period_tiers (db : DB) (now : Int)
    (i : String) (e : Int) :
    (update_subscription_period db now i e).tiers = db.tiers := rfl

@[simp]
lemma log_payment_event_subscriptions (db : DB) (now : Int) (e : EventData) :
    (log_payment_event db now e).subscriptions = db.subscriptions := rfl

@[simp]
lemma log_payment_event_payment_logs (db : DB) (now : Int) (e : EventData) :
    (log_payment_event db now e).payment_logs = db.payment_logs ++ [logRowOf now e] := rfl

@[simp]
lemma log_payment_event_profiles (db : DB) (now : Int) (e : EventData) :
    (log_payment_event db now e).profiles = db.profiles := rfl

@[simp]
lemma log_payment_event_tiers (db : DB) (now : Int) (e : EventData) :
    (log_payment_event db now e).tiers = db.tiers := rfl

@[simp]
lemma cancel_subscription_subscriptions (db : DB) (now : Int) (i r : String) :
    (cancel_subscription db now i r).subscriptions =
      db.subscriptions.map (fun s =>
        if s.id == i then
          { s with status := "CANCELED", cancel_effective_at := some now,
                   updated_at := now }
        else s) := by
  simp only [cancel_subscription, log_payment_event]
  split <;> rfl

@[simp]
lemma cancel_subscription_payment_logs (db : DB) (now : Int) (i r : String) :
    (cancel_subscription db now i r).payment_logs =
      db.payment_logs ++ [logRowOf now (cancelEventData i r)] := by
  simp only [cancel_subscription, log_payment_event]
  split <;> rfl

@[simp]
lemma cancel_subscription_tiers (db : DB) (now : Int) (i r : String) :
    (cancel_subscription db now i r).tiers = db.tiers := by
  simp only [cancel_subscription, log_payment_event]
  split <;> rfl

/-- `find?` commutes with a map that preserves the searched-for id. -/
lemma find?_map_id (f : Subscription → Subscription)
    (hf : ∀ s, (f s).id = s.id) (l : List Subscription) (i : String) :
    (l.map f).find? (fun s => s.id == i) = (l.find? (fun s => s.id == i)).map f := by
  induction l with
  | nil => rfl
  | cons a t ih =>
    simp only [List.map_cons, List.find?]
    rw [hf a]
    cases h : (a.id == i) with
    | true => simp
    | false => simpa using ih

@[simp]
lemma getSub_log_payment_event (db : DB) (now : Int) (e : EventData) (i : String) :
    getSub (log_payment_event db now e) i = getSub db i := rfl

@[simp]
lemma getSub_update_order_status (db : DB) (now : Int) (oid st : String)
    (noid : Option String) (i : String) :
    getSub (update_order_status db now oid st noid) i = getSub db i := rfl

@[simp]
lemma getSub_create_renewal_order (db : DB) (now : Int) (sub : SubscriptionRow)
    (a : Int) (i : String) :
    getSub (create_renewal_order db now sub a).2 i = getSub db i := rfl

/-- Effect of the period-advancing write on a lookup of the written row. -/
lemma getSub_update_period (db : DB) (now : Int) (i : String) (e : Int) :
    getSub (update_subscription_period db now i e) i =
      (getSub db i).map (fun s =>
        { s with current_period_start := now, current_period_end := e,
                 updated_at := now }) := by
  unfold getSub update_subscription_period
  rw [find?_map_id _ (fun s => by split <;> rfl)]
  cases h : db.subscriptions.find? (fun s => s.id == i) with
  | none => rfl
  | some s0 =>
    have hpe : s0.id = i := by simpa using List.find?_some h
    simp [hpe]

/-- The database after a renewal whose gateway charge was accepted: order
inserted, order marked `PROCESSING`, period advanced, success event logged —
in that source order. -/
def renewalOkDB (db : DB) (now : Int) (sub : SubscriptionRow)
    (body : ResponseBody) : DB :=
  log_payment_event
    (update_subscription_period
      (update_order_status (create_renewal_order db now sub sub.price).2 now
        (nextOrderIdStr db) "PROCESSING" body.netopia_order_id)
      now sub.id (newPeriodEnd now sub.interval))
    now (renewalSuccessEvent (nextOrderIdStr db) sub body)

/-- Normal form of the renewal path when the gateway accepts the charge. -/
lemma renewal_ok_eq (st : St) (now : Int) (sub : SubscriptionRow)
    (gw : String → HttpBehavior) (body : ResponseBody)
    (hgw : create_recurring_payment (gw (nextOrderIdStr st.db)) = Except.ok body) :
    process_subscription_renewal st now sub gw =
      ({ db := renewalOkDB st.db now sub body,
         trace := st.trace ++
           [.createOrder (nextOrderIdStr st.db),
            .gatewayCharge (nextOrderIdStr st.db) (.ok body),
            .updateOrder (nextOrderIdStr st.db) "PROCESSING",
            .advancePeriod sub.id (newPeriodEnd now sub.interval),
            .appendEvent (renewalSuccessEvent (nextOrderIdStr st.db) sub body)],
         logs := st.logs ++
           ["Processing renewal for subscription " ++ sub.id,
            "Created renewal order " ++ nextOrderIdStr st.db,
            "Successfully processed renewal for subscription " ++ sub.id] },
       none) := by
  simp [process_subscription_renewal, createOrderSt, logLine, appendEventSt,
        renewalOkDB, hgw]

/-- Normal form of the renewal path when the gateway call raises: only the
`PENDING` order insert has happened and the exception escapes. -/
lemma renewal_error_eq (st : St) (now : Int) (sub : SubscriptionRow)
    (gw : String → HttpBehavior) (e : PyError)
    (hgw : create_recurring_payment (gw (nextOrderIdStr st.db)) = Except.error e) :
    process_subscription_renewal st now sub gw =
      ({ db := (create_renewal_order st.db now sub sub.price).2,
         trace := st.trace ++
           [.createOrder (nextOrderIdStr st.db),
            .gatewayCharge (nextOrderIdStr st.db) (.error e)],
         logs := st.logs ++
           ["Processing renewal for subscription " ++ sub.id,
            "Created renewal order " ++ nextOrderIdStr st.db,
            "Failed to process renewal for subscription " ++ sub.id ++ ": " ++ pyStr e] },
       some e) := by
  simp [process_subscription_renewal, createOrderSt, logLine, hgw]

/-- Effect of `cancel_subscription` on a lookup of the cancelled row. -/
lemma getSub_cancel (db : DB) (now : Int) (i r : String) :
    getSub (cancel_subscription db now i r) i =
      (getSub db i).map (fun s =>
        { s with status := "CANCELED", cancel_effective_at := some now,
                 updated_at := now }) := by
  unfold getSub
  rw [cancel_subscription_subscriptions]
  rw [find?_map_id _ (fun s => by split <;> rfl)]
  cases h : db.subscriptions.find? (fun s => s.id == i) with
  | none => rfl
  | some s0 =>
    have hpe : s0.id = i := by simpa using List.find?_some h
    simp [hpe]

/-- Checks whether `pat` occurs as a contiguous substring of the character
list `s`. -/
def strHasAux (pat : List Char) : List Char → Bool
  | [] => pat.isEmpty
  | c :: t => pat.isPrefixOf (c :: t) || strHasAux pat t

/-- Checks whether `pat` occurs as a contiguous substring of `s`. -/
def strHas (s pat : String) : Bool := strHasAux pat.toList s.toList

/-- Distinguishes the gateway-charge action in a trace. -/
def isGatewayAction : Action → Bool
  | .gatewayCharge _ _ => true
  | _ => false

/-- A Prop-valued restatement of `newPeriodEnd`, matching the spec's case
analysis on the interval string. -/
lemma newPeriodEnd_eq (now : Int) (i : String) :
    newPeriodEnd now i =
      (if i = "MONTHLY" then now + timedeltaDays 30
       else if i = "YEARLY" then now + timedeltaDays 365
       else now + timedeltaDays 30) := by
  simp [newPeriodEnd]

/-- The advanced period end is strictly later than `now`. -/
lemma now_lt_newPeriodEnd (now : Int) (i : String) : now < newPeriodEnd now i := by
  unfold newPeriodEnd timedeltaDays
  split
  · omega
  · split <;> omega

/-! Concrete test fixture (the mock scenario of the spec's section 8:
an active due subscription `sub_1`, a tokenless expired trial `sub_2`,
a tokened expired trial `sub_3`, and a failed payment on `order_1`). -/

/-- The `pro` tier, monthly billing. -/
def tier0 : Tier :=
  { id := "tier_1", price := 2999, currency := "RON", interval := "MONTHLY",
    name := "pro" }

/-- Active subscription, due for renewal, token stored. -/
def sub1 : Subscription :=
  { id := "sub_1", user_id := "user_1", tier_id := "tier_1", status := "ACTIVE",
    netopia_token := some "token_123", auto_renew := true,
    current_period_start := 200, current_period_end := 976, trial_end := none,
    cancel_effective_at := none, updated_at := 200 }

/-- Trialing subscription, trial over, no token. -/
def sub2 : Subscription :=
  { id := "sub_2", user_id := "user_2", tier_id := "tier_1", status := "TRIALING",
    netopia_token := none, auto_renew := false,
    current_period_start := 0, current_period_end := 0, trial_end := some 999,
    cancel_effective_at := none, updated_at := 0 }

/-- Trialing subscription, trial over, token stored. -/
def sub3 : Subscription :=
  { id := "sub_3", user_id := "user_3", tier_id := "tier_1", status := "TRIALING",
    netopia_token := some "token_456", auto_renew := false,
    current_period_start := 0, current_period_end := 0, trial_end := some 995,
    cancel_effective_at := none, updated_at := 0 }

/-- A previously failed order for `sub_1`. -/
def order1 : Order :=
  { id := "order_1", user_id := "user_1", subscription_id := some "sub_1",
    amount := 2999, currency := "RON", status := "FAILED",
    netopia_order_id := none, metadata := none, created_at := 998,
    updated_at := 998 }

/-- The stored `PAYMENT_FAILED` event for `order_1`, retried once, 2 hours
old. -/
def failedLog1 : PaymentLog :=
  { order_id := some "order_1", subscription_id := some "sub_1",
    event_type := "PAYMENT_FAILED", netopia_order_id := none,
    amount := some 2999, currency := some "RON", status := some "FAILED",
    raw_payload := .empty, retry_count := 1, error_message := some "declined",
    created_at := 998 }

/-- The fixture database. -/
def db0 : DB :=
  { subscriptions := [sub1, sub2, sub3], tiers := [tier0], orders := [order1],
    payment_logs := [failedLog1],
    profiles := [{ id := "user_1", subscription_tier := "pro", updated_at := 0 },
                 { id := "user_2", subscription_tier := "pro", updated_at := 0 },
                 { id := "user_3", subscription_tier := "pro", updated_at := 0 }],
    nextOrderId := 5 }

/-- The fixture clock. -/
def now0 : Int := 1000

/-- The fixture initial manager state. -/
def st0 : St := { db := db0, trace := [], logs := [] }

/-- Gateway response body for an accepted charge. -/
def okBody : ResponseBody := { netopia_order_id := some "G-1", message := none }

/-- Gateway oracle: every charge is accepted promptly. -/
def gwOk : String → HttpBehavior := fun _ => .completes 1 200 okBody

/-- Gateway oracle: every charge is declined with HTTP 402. -/
def gwRej : String → HttpBehavior :=
  fun _ => .completes 1 402 { netopia_order_id := none, message := some "card declined" }

/-- The joined row for `sub_1` (as `get_due_subscriptions` returns it). -/
def sub1row : SubscriptionRow :=
  { id := "sub_1", user_id := "user_1", tier_id := "tier_1", status := "ACTIVE",
    netopia_token := some "token_123", auto_renew := true,
    current_period_start := 200, current_period_end := 976, trial_end := none,
    price := 2999, currency := "RON", interval := "MONTHLY", tier_name := "pro" }

/-- The joined row for `sub_2` (as `get_trial_subscriptions` returns it). -/
def sub2row : SubscriptionRow :=
  { id := "sub_2", user_id := "user_2", tier_id := "tier_1", status := "TRIALING",
    netopia_token := none, auto_renew := false,
    current_period_start := 0, current_period_end := 0, trial_end := some 999,
    price := 2999, currency := "RON", interval := "MONTHLY", tier_name := "pro" }

/-- The joined row for `sub_3` (as `get_trial_subscriptions` returns it). -/
def sub3row : SubscriptionRow :=
  { id := "sub_3", user_id := "user_3", tier_id := "tier_1", status := "TRIALING",
    netopia_token := some "token_456", auto_renew := false,
    current_period_start := 0, current_period_end := 0, trial_end := some 995,
    price := 2999, currency := "RON", interval := "MONTHLY", tier_name := "pro" }

/-- Effect of `cancel_subscription` on the profiles table, when the
subscription row exists: its user's profile drops to the `free` tier. -/
lemma cancel_subscription_profiles (db : DB) (now : Int) (i r : String)
    (s0 : Subscription) (hfind : getSub db i = some s0) :
    (cancel_subscription db now i r).profiles =
      db.profiles.map (fun p =>
        if p.id == s0.user_id then
          { p with subscription_tier := "free", updated_at := now }
        else p) := by
  have hfind' : List.find? (fun s => s.id == i) db.subscriptions = some s0 := by
    simpa [getSub] using hfind
  have hb := List.find?_some hfind'
  have hpe : s0.id = i := eq_of_beq hb
  have hmap : (db.subscriptions.map (fun s =>
      if s.id == i then
        { s with status := "CANCELED", cancel_effective_at := some now,
                 updated_at := now }
      else s)).find? (fun s => s.id == i) =
      some { s0 with status := "CANCELED", cancel_effective_at := some now,
                     updated_at := now } := by
    rw [find?_map_id _ (fun s => by split <;> rfl)]
    unfold getSub at hfind
    rw [hfind]
    simp [hpe]
  simp only [cancel_subscription, log_payment_event]
  rw [hmap]

/-- C6: `create_recurring_payment` returns the raw 200-response payload (the
provider transaction handle travels in its `netopia_order_id` field), or one
of three distinguishable typed failures: a non-success HTTP status raises an
`Exception` carrying the provider's reason, a request exceeding the fixed
30-second timeout raises the timeout error, and a transport-level error
raises the connection error; the three failure classes are pairwise
distinct, so an explicit decline is distinguishable from a retryable
transient failure. -/
theorem C6_gateway_typed_outcomes (seconds : Int) (status : Nat) (body : ResponseBody) :
    netopiaTimeoutSeconds = 30 ∧
    create_recurring_payment .transportError = .error .connectionError ∧
    (netopiaTimeoutSeconds < seconds →
      create_recurring_payment (.completes seconds status body) = .error .timeoutError) ∧
    (seconds ≤ netopiaTimeoutSeconds → status ≠ 200 →
      create_recurring_payment (.completes seconds status body) =
        .error (.exception ("Netopia API error: " ++ body.message.getD "Unknown error"))) ∧
    (seconds ≤ netopiaTimeoutSeconds →
      create_recurring_payment (.completes seconds 200 body) = .ok body) ∧
    (∀ m, PyError.exception m ≠ .timeoutError ∧ PyError.exception m ≠ .connectionError) ∧
    PyError.timeoutError ≠ .connectionError := by
  refine ⟨rfl, rfl, fun h => ?_, fun h1 h2 => ?_, fun h1 => ?_,
    fun m => ⟨fun hc => PyError.noConfusion hc, fun hc => PyError.noConfusion hc⟩,
    fun hc => PyError.noConfusion hc⟩
  · simp [create_recurring_payment, if_pos h]
  · have hn : ¬ netopiaTimeoutSeconds < seconds := not_lt.mpr h1
    simp [create_recurring_payment, hn, h2]
  · have hn : ¬ netopiaTimeoutSeconds < seconds := not_lt.mpr h1
    simp [create_recurring_payment, hn]

/-- Witness for C6: a prompt HTTP 402 with reason "card declined" is an
`Exception` carrying that reason. -/
theorem C6_witness :
    create_recurring_payment
        (.completes 1 402 { netopia_order_id := none, message := some "card declined" }) =
      .error (.exception "Netopia API error: card declined") := by
  have h := (C6_gateway_typed_outcomes 1 402
    { netopia_order_id := none, message := some "card declined" }).2.2.2.1
    (by decide) (by decide)
  simpa using h

/-- C9: on a successful renewal the stored period becomes
`current_period_start = now` and `current_period_end = now` plus 30 days for
`MONTHLY`, 365 days for `YEARLY`, and 30 days (the `MONTHLY` policy) for
every other interval value. -/
theorem C9_renewal_period_arithmetic (st : St) (now : Int) (sub : SubscriptionRow)
    (gw : String → HttpBehavior) (body : ResponseBody)
    (hgw : create_recurring_payment (gw (nextOrderIdStr st.db)) = Except.ok body)
    (s0 : Subscription) (hfind : getSub st.db sub.id = some s0) :
    ∃ s1, getSub (process_subscription_renewal st now sub gw).1.db sub.id = some s1 ∧
      s1.current_period_start = now ∧
      s1.current_period_end =
        (if sub.interval = "MONTHLY" then now + timedeltaDays 30
         else if sub.interval = "YEARLY" then now + timedeltaDays 365
         else now + timedeltaDays 30) := by
  rw [renewal_ok_eq st now sub gw body hgw]
  simp only [renewalOkDB, getSub_log_payment_event]
  rw [getSub_update_period]
  simp only [getSub_update_order_status, getSub_create_renewal_order, hfind,
    Option.map_some']
  exact ⟨_, rfl, rfl, newPeriodEnd_eq now sub.interval⟩

/-- Witness for C9 at the fixture: renewing `sub_1` (interval `MONTHLY`)
with an accepted charge sets its period to `[1000, 1000 + 30 days]`. -/
theorem C9_witness :
    ∃ s1, getSub (process_subscription_renewal st0 now0 sub1row gwOk).1.db "sub_1" = some s1 ∧
      s1.current_period_start = 1000 ∧
      s1.current_period_end =
        (if "MONTHLY" = "MONTHLY" then (1000 : Int) + timedeltaDays 30
         else if "MONTHLY" = "YEARLY" then 1000 + timedeltaDays 365
         else 1000 + timedeltaDays 30) :=
  C9_renewal_period_arithmetic st0 now0 sub1row gwOk okBody (by rfl) sub1 (by rfl)

/-- C7: for a trial subscription with no stored payment token,
`_process_trial_expiration` cancels immediately: status becomes `CANCELED`,
the user's profile tier is downgraded to `free`, and exactly one
`SUBSCRIPTION_CANCELED`/`CANCELED` payment event is appended whose payload
carries the reason, which contains "no payment method". -/
theorem C7_trial_no_token_cancel (st : St) (now : Int) (sub : SubscriptionRow)
    (gw : String → HttpBehavior) (htok : sub.netopia_token = none)
    (s0 : Subscription) (hfind : getSub st.db sub.id = some s0) :
    (∃ s1, getSub (process_trial_expiration st now sub gw).db sub.id = some s1 ∧
      s1.status = "CANCELED") ∧
    (∀ p ∈ (process_trial_expiration st now sub gw).db.profiles,
      p.id = s0.user_id → p.subscription_tier = "free") ∧
    (process_trial_expiration st now sub gw).db.payment_logs =
      st.db.payment_logs ++
        [logRowOf now (cancelEventData sub.id "Trial expired - no payment method")] ∧
    (cancelEventData sub.id "Trial expired - no payment method").event_type =
      "SUBSCRIPTION_CANCELED" ∧
    (cancelEventData sub.id "Trial expired - no payment method").status =
      some "CANCELED" ∧
    (cancelEventData sub.id "Trial expired - no payment method").raw_payload =
      .cancelReason "Trial expired - no payment method" ∧
    strHas "Trial expired - no payment method" "no payment method" = true := by
  have hst' : (process_trial_expiration st now sub gw).db =
      cancel_subscription st.db now sub.id "Trial expired - no payment method" := by
    simp [process_trial_expiration, pyFalsy, htok, logLine, cancelSubscriptionSt]
  rw [hst']
  refine ⟨?_, ?_, by simp, rfl, rfl, rfl, by decide⟩
  · rw [getSub_cancel, hfind]
    exact ⟨_, rfl, rfl⟩
  · rw [cancel_subscription_profiles st.db now sub.id _ s0 hfind]
    intro p hp hid
    obtain ⟨q, hq, rfl⟩ := List.mem_map.mp hp
    have hq' : q.id = s0.user_id := by
      revert hid
      split <;> intro h <;> simpa using h
    simp [hq']

/-- Witness for C7 at the fixture: the tokenless expired trial `sub_2` is
cancelled, its user `user_2` drops to the free tier, and the cancellation
event carries the reason. -/
theorem C7_witness :
    (∃ s1, getSub (process_trial_expiration st0 now0 sub2row gwOk).db "sub_2" = some s1 ∧
      s1.status = "CANCELED") ∧
    (∀ p ∈ (process_trial_expiration st0 now0 sub2row gwOk).db.profiles,
      p.id = "user_2" → p.subscription_tier = "free") ∧
    (process_trial_expiration st0 now0 sub2row gwOk).db.payment_logs =
      db0.payment_logs ++
        [logRowOf now0 (cancelEventData "sub_2" "Trial expired - no payment method")] ∧
    (cancelEventData "sub_2" "Trial expired - no payment method").event_type =
      "SUBSCRIPTION_CANCELED" ∧
    (cancelEventData "sub_2" "Trial expired - no payment method").status =
      some "CANCELED" ∧
    (cancelEventData "sub_2" "Trial expired - no payment method").raw_payload =
      .cancelReason "Trial expired - no payment method" ∧
    strHas "Trial expired - no payment method" "no payment method" = true :=
  C7_trial_no_token_cancel st0 now0 sub2row gwOk rfl sub2 (by rfl)

/-- C3: for a subscription handled by the billing loop, either the gateway
accepted the charge, the stored period end strictly increased, and exactly
one `SUCCESS` payment event was appended; or the gateway call failed, the
period end is unchanged, and exactly one `FAILED` event carrying the error
message was appended. -/
theorem C3_renewal_dichotomy (st : St) (now : Int) (sub : SubscriptionRow)
    (gw : String → HttpBehavior) (s0 : Subscription)
    (hfind : getSub st.db sub.id = some s0)
    (hpe : sub.current_period_end = s0.current_period_end)
    (hdue : sub.current_period_end ≤ now) :
    (∃ body, create_recurring_payment (gw (nextOrderIdStr st.db)) = Except.ok body ∧
      (∃ s1, getSub (billingStep now gw st sub).db sub.id = some s1 ∧
        s0.current_period_end < s1.current_period_end) ∧
      (billingStep now gw st sub).db.payment_logs =
        st.db.payment_logs ++
          [logRowOf now (renewalSuccessEvent (nextOrderIdStr st.db) sub body)] ∧
      (renewalSuccessEvent (nextOrderIdStr st.db) sub body).status = some "SUCCESS") ∨
    (∃ e, create_recurring_payment (gw (nextOrderIdStr st.db)) = Except.error e ∧
      (∃ s1, getSub (billingStep now gw st sub).db sub.id = some s1 ∧
        s1.current_period_end = s0.current_period_end) ∧
      (billingStep now gw st sub).db.payment_logs =
        st.db.payment_logs ++ [logRowOf now (renewalFailedEvent sub e)] ∧
      (renewalFailedEvent sub e).status = some "FAILED" ∧
      (renewalFailedEvent sub e).error_message = some (pyStr e)) := by
  cases h : create_recurring_payment (gw (nextOrderIdStr st.db)) with
  | ok body =>
    left
    have hdb : (billingStep now gw st sub).db = renewalOkDB st.db now sub body := by
      unfold billingStep
      rw [renewal_ok_eq st now sub gw body h]
    refine ⟨body, rfl, ?_, ?_, rfl⟩
    · rw [hdb]
      simp only [renewalOkDB, getSub_log_payment_event]
      rw [getSub_update_period]
      simp only [getSub_update_order_status, getSub_create_renewal_order, hfind,
        Option.map_some']
      refine ⟨_, rfl, ?_⟩
      show s0.current_period_end < newPeriodEnd now sub.interval
      calc s0.current_period_end = sub.current_period_end := hpe.symm
        _ ≤ now := hdue
        _ < newPeriodEnd now sub.interval := now_lt_newPeriodEnd now sub.interval
    · rw [hdb]
      simp [renewalOkDB]
  | error e =>
    right
    have hdb : (billingStep now gw st sub).db =
        log_payment_event (create_renewal_order st.db now sub sub.price).2 now
          (renewalFailedEvent sub e) := by
      unfold billingStep
      rw [renewal_error_eq st now sub gw e h]
      simp [logLine, appendEventSt]
    refine ⟨e, rfl, ⟨s0, ?_, rfl⟩, ?_, rfl, rfl⟩
    · rw [hdb]
      simpa using hfind
    · rw [hdb]
      simp

/-- Witness for C3 at the fixture, success branch: renewing `sub_1` through
the billing loop with an accepting gateway strictly advances its period end
and appends the one `SUCCESS` event. -/
theorem C3_witness :
    (∃ body, create_recurring_payment (gwOk (nextOrderIdStr db0)) = Except.ok body ∧
      (∃ s1, getSub (billingStep now0 gwOk st0 sub1row).db "sub_1" = some s1 ∧
        sub1.current_period_end < s1.current_period_end) ∧
      (billingStep now0 gwOk st0 sub1row).db.payment_logs =
        db0.payment_logs ++
          [logRowOf now0 (renewalSuccessEvent (nextOrderIdStr db0) sub1row body)] ∧
      (renewalSuccessEvent (nextOrderIdStr db0) sub1row body).status = some "SUCCESS") ∨
    (∃ e, create_recurring_payment (gwOk (nextOrderIdStr db0)) = Except.error e ∧
      (∃ s1, getSub (billingStep now0 gwOk st0 sub1row).db "sub_1" = some s1 ∧
        s1.current_period_end = sub1.current_period_end) ∧
      (billingStep now0 gwOk st0 sub1row).db.payment_logs =
        db0.payment_logs ++ [logRowOf now0 (renewalFailedEvent sub1row e)] ∧
      (renewalFailedEvent sub1row e).status = some "FAILED" ∧
      (renewalFailedEvent sub1row e).error_message = some (pyStr e)) :=
  C3_renewal_dichotomy st0 now0 sub1row gwOk sub1 (by rfl) rfl (by decide)

/-- C4: in any execution of the renewal path, the period-advancing write
appears in the action trace only strictly after a gateway charge that
returned success, and whenever the gateway accepted a charge an immutable
`SUCCESS` payment event is also in the trace. -/
theorem C4_no_advance_before_accept (st : St) (now : Int) (sub : SubscriptionRow)
    (gw : String → HttpBehavior) (htr : st.trace = []) :
    (∀ i sid pe,
      (process_subscription_renewal st now sub gw).1.trace.get? i =
        some (.advancePeriod sid pe) →
      ∃ j oid body, j < i ∧
        (process_subscription_renewal st now sub gw).1.trace.get? j =
          some (.gatewayCharge oid (Except.ok body))) ∧
    (∀ oid body,
      (Action.gatewayCharge oid (Except.ok body)) ∈
        (process_subscription_renewal st now sub gw).1.trace →
      ∃ ev, (Action.appendEvent ev) ∈
        (process_subscription_renewal st now sub gw).1.trace ∧
        ev.status = some "SUCCESS") := by
  cases h : create_recurring_payment (gw (nextOrderIdStr st.db)) with
  | ok body =>
    rw [renewal_ok_eq st now sub gw body h]
    constructor
    · intro i sid pe hi
      simp only [htr, List.nil_append] at hi ⊢
      have hi3 : i = 3 := by
        rcases i with _ | _ | _ | _ | _ | i <;> simp_all
      subst hi3
      exact ⟨1, nextOrderIdStr st.db, body, by omega, rfl⟩
    · intro oid body' hmem
      simp only [htr, List.nil_append] at hmem ⊢
      refine ⟨renewalSuccessEvent (nextOrderIdStr st.db) sub body, by simp, rfl⟩
  | error e =>
    rw [renewal_error_eq st now sub gw e h]
    constructor
    · intro i sid pe hi
      simp only [htr, List.nil_append] at hi
      rcases i with _ | _ | i <;> simp_all
    · intro oid body' hmem
      simp only [htr, List.nil_append] at hmem
      simp at hmem

/-- Witness for C4 at the fixture: in the accepted-charge trace the period
advance sits at index 3 and the accepting gateway charge strictly before it
at index 1. -/
theorem C4_witness :
    ∃ j oid body, j < 3 ∧
      (process_subscription_renewal st0 now0 sub1row gwOk).1.trace.get? j =
        some (.gatewayCharge oid (Except.ok body)) :=
  (C4_no_advance_before_accept st0 now0 sub1row gwOk rfl).1 3 "sub_1"
    (newPeriodEnd now0 "MONTHLY") (by rfl)

/-- C1 (evidence of the divergence): the tokened expired trial `sub_3` is in
the trial queue; processing it with a gateway that accepts the charge takes
the successful-charge path (the accepting gateway call is in the trace), yet
leaves the subscription's status exactly `TRIALING` — not `ACTIVE` and not
`CANCELED`. -/
theorem C1_trial_success_left_trialing :
    sub3row ∈ get_trial_subscriptions db0 now0 ∧
    sub3.status = "TRIALING" ∧ sub3.trial_end = some 995 ∧ (995 : Int) ≤ now0 ∧
    sub3.netopia_token.isSome = true ∧
    (Action.gatewayCharge (nextOrderIdStr db0) (Except.ok okBody)) ∈
      (process_trial_expiration st0 now0 sub3row gwOk).trace ∧
    (getSub (process_trial_expiration st0 now0 sub3row gwOk).db "sub_3").map
      Subscription.status = some "TRIALING" := by
  decide

/-- C2 (evidence of the divergence): the eligible failed payment on
`order_1` (retry count 1, max 3, 2 hours old) is selected by
`get_failed_payments`; the retries pass then performs no gateway charge at
all, leaves the stored `PAYMENT_FAILED` row's `retry_count` at 1, and merely
appends one `PAYMENT_RETRY`/`RETRYING` log event carrying count 2. -/
theorem C2_retry_logs_but_never_recharges :
    (∃ p ∈ get_failed_payments db0 3 now0,
      p.order_id = "order_1" ∧ p.retry_count = 1) ∧
    ((process_payment_retries st0 now0 3).trace.all
      (fun a => !(isGatewayAction a))) = true ∧
    (process_payment_retries st0 now0 3).db.payment_logs.filter
      (fun pl => pl.event_type == "PAYMENT_FAILED") = [failedLog1] ∧
    failedLog1.retry_count = 1 ∧
    (process_payment_retries st0 now0 3).db.payment_logs =
      db0.payment_logs ++
        [logRowOf now0 (retryEventData
          { order_id := "order_1", subscription_id := some "sub_1",
            retry_count := 1, created_at := 998 })] ∧
    (retryEventData
      { order_id := "order_1", subscription_id := some "sub_1",
        retry_count := 1, created_at := 998 }).retry_count = some 2 ∧
    (retryEventData
      { order_id := "order_1", subscription_id := some "sub_1",
        retry_count := 1, created_at := 998 }).status = some "RETRYING" := by
  decide

/-- Structural fields of a joined row: everything except the tier columns is
copied from the subscription. -/
lemma joinTier_fields {tiers : List Tier} {s : Subscription} {r : SubscriptionRow}
    (h : joinTier tiers s = some r) :
    r.id = s.id ∧ r.status = s.status ∧ r.netopia_token = s.netopia_token ∧
    r.auto_renew = s.auto_renew ∧ r.current_period_end = s.current_period_end ∧
    r.trial_end = s.trial_end ∧ r.tier_id = s.tier_id := by
  unfold joinTier at h
  cases hf : tiers.find? (fun t => t.id == s.tier_id) with
  | none => rw [hf] at h; cases h
  | some t => rw [hf] at h; cases h; exact ⟨rfl, rfl, rfl, rfl, rfl, rfl, rfl⟩

/-- A subscription whose join succeeds and that satisfies the trial filter
is in the trial queue. -/
lemma mem_get_trial_of (db : DB) (now' : Int) (s : Subscription)
    (hs : s ∈ db.subscriptions) (r : SubscriptionRow)
    (hj : joinTier db.tiers s = some r) (hp : trialPred now' r = true) :
    r ∈ get_trial_subscriptions db now' := by
  unfold get_trial_subscriptions
  rw [List.mem_insertionSort]
  exact List.mem_filter.mpr ⟨List.mem_filterMap.mpr ⟨s, hs, hj⟩, hp⟩

/-- The tiers table is untouched by the whole accepted-renewal write chain. -/
lemma renewalOkDB_tiers (db : DB) (now : Int) (sub : SubscriptionRow)
    (body : ResponseBody) : (renewalOkDB db now sub body).tiers = db.tiers := by
  simp [renewalOkDB]

/-- The subscription row after the period-advancing write. -/
def advancedSub (s0 : Subscription) (now pe : Int) : Subscription :=
  { s0 with current_period_start := now, current_period_end := pe,
            updated_at := now }

/-- C10: the period-advancing write modifies only `current_period_start`,
`current_period_end` and `updated_at` on the matching rows (elementwise, all
other fields and all other tables are unchanged); consequently a `TRIALING`
subscription successfully charged through the shared renewal path keeps
status `TRIALING`, its past `trial_end` and its token, and is selected again
by the trial queue at any later instant. -/
theorem C10_period_write_frame_and_trial_requeue
    (db : DB) (now : Int) (i : String) (pe : Int) (k : Nat)
    (st : St) (sub : SubscriptionRow) (gw : String → HttpBehavior)
    (body : ResponseBody)
    (hgw : create_recurring_payment (gw (nextOrderIdStr st.db)) = Except.ok body)
    (htok : pyFalsy sub.netopia_token = false)
    (s0 : Subscription) (hfind : getSub st.db sub.id = some s0)
    (hstat : s0.status = "TRIALING") (te : Int) (hte : s0.trial_end = some te)
    (now' : Int) (hnow' : te ≤ now')
    (htier : (st.db.tiers.find? (fun t => t.id == s0.tier_id)).isSome = true) :
    ((update_subscription_period db now i pe).subscriptions.get? k =
      (db.subscriptions.get? k).map (fun s =>
        if s.id = i then
          { s with current_period_start := now, current_period_end := pe,
                   updated_at := now }
        else s)) ∧
    (update_subscription_period db now i pe).orders = db.orders ∧
    (update_subscription_period db now i pe).payment_logs = db.payment_logs ∧
    (update_subscription_period db now i pe).profiles = db.profiles ∧
    (update_subscription_period db now i pe).tiers = db.tiers ∧
    (∃ s1, getSub (process_trial_expiration st now sub gw).db sub.id = some s1 ∧
      s1.status = "TRIALING" ∧ s1.trial_end = some te ∧
      s1.netopia_token = s0.netopia_token ∧ s1.auto_renew = s0.auto_renew ∧
      ∃ r ∈ get_trial_subscriptions (process_trial_expiration st now sub gw).db now',
        r.id = sub.id) := by
  have hframe : (update_subscription_period db now i pe).subscriptions.get? k =
      (db.subscriptions.get? k).map (fun s =>
        if s.id = i then
          { s with current_period_start := now, current_period_end := pe,
                   updated_at := now }
        else s) := by
    have hfun : ∀ s : Subscription,
        (if s.id == i then
          { s with current_period_start := now, current_period_end := pe,
                   updated_at := now }
         else s) =
        (if s.id = i then
          { s with current_period_start := now, current_period_end := pe,
                   updated_at := now }
         else s) := by
      intro s
      by_cases hs : s.id = i <;> simp [hs]
    simp only [update_subscription_period, List.get?_map]
    cases hget : db.subscriptions.get? k <;> simp [hfun]
  have hdb : (process_trial_expiration st now sub gw).db =
      renewalOkDB st.db now sub body := by
    have hrew := renewal_ok_eq
      (logLine st ("Processing trial expiration for subscription " ++ sub.id))
      now sub gw body (by simpa [logLine] using hgw)
    simp only [process_trial_expiration, htok, Bool.false_eq_true, if_false]
    rw [hrew]
    simp [logLine]
  have hsid : s0.id = sub.id := by
    have hfind' : List.find? (fun s => s.id == sub.id) st.db.subscriptions = some s0 := by
      simpa [getSub] using hfind
    have hb := List.find?_some hfind'
    exact eq_of_beq hb
  refine ⟨hframe, rfl, rfl, rfl, rfl, ?_⟩
  have hget1 : getSub (process_trial_expiration st now sub gw).db sub.id =
      some (advancedSub s0 now (newPeriodEnd now sub.interval)) := by
    rw [hdb]
    simp only [renewalOkDB, getSub_log_payment_event]
    rw [getSub_update_period]
    simp only [getSub_update_order_status, getSub_create_renewal_order, hfind,
      Option.map_some']
    rfl
  refine ⟨_, hget1, hstat, hte, rfl, rfl, ?_⟩
  obtain ⟨t, ht⟩ := Option.isSome_iff_exists.mp htier
  have hs1mem : advancedSub s0 now (newPeriodEnd now sub.interval) ∈
      (process_trial_expiration st now sub gw).db.subscriptions :=
    List.mem_of_find?_eq_some (by simpa [getSub] using hget1)
  have htiers' : (process_trial_expiration st now sub gw).db.tiers = st.db.tiers := by
    rw [hdb, renewalOkDB_tiers]
  have hj : joinTier (process_trial_expiration st now sub gw).db.tiers
      (advancedSub s0 now (newPeriodEnd now sub.interval)) =
      some { id := s0.id, user_id := s0.user_id, tier_id := s0.tier_id,
             status := s0.status, netopia_token := s0.netopia_token,
             auto_renew := s0.auto_renew, current_period_start := now,
             current_period_end := newPeriodEnd now sub.interval,
             trial_end := s0.trial_end,
             price := t.price, currency := t.currency, interval := t.interval,
             tier_name := t.name } := by
    rw [htiers']
    unfold joinTier advancedSub
    rw [ht]
  refine ⟨_, mem_get_trial_of _ now' _ hs1mem _ hj ?_, hsid⟩
  simp [trialPred, hstat, hte, hnow']

/-- Witness for C10 at the fixture: processing the tokened expired trial
`sub_3` with an accepted charge leaves it `TRIALING` with `trial_end` 995
and its token, and `sub_3` is back in the trial queue two days later. -/
theorem C10_witness :
    ((update_subscription_period db0 now0 "sub_1" 1720).subscriptions.get? 0 =
      (db0.subscriptions.get? 0).map (fun s =>
        if s.id = "sub_1" then
          { s with current_period_start := now0, current_period_end := 1720,
                   updated_at := now0 }
        else s)) ∧
    (update_subscription_period db0 now0 "sub_1" 1720).orders = db0.orders ∧
    (update_subscription_period db0 now0 "sub_1" 1720).payment_logs = db0.payment_logs ∧
    (update_subscription_period db0 now0 "sub_1" 1720).profiles = db0.profiles ∧
    (update_subscription_period db0 now0 "sub_1" 1720).tiers = db0.tiers ∧
    (∃ s1, getSub (process_trial_expiration st0 now0 sub3row gwOk).db "sub_3" = some s1 ∧
      s1.status = "TRIALING" ∧ s1.trial_end = some 995 ∧
      s1.netopia_token = sub3.netopia_token ∧ s1.auto_renew = sub3.auto_renew ∧
      ∃ r ∈ get_trial_subscriptions (process_trial_expiration st0 now0 sub3row gwOk).db
          (now0 + 48), r.id = "sub_3") :=
  C10_period_write_frame_and_trial_requeue db0 now0 "sub_1" 1720 0 st0 sub3row
    gwOk okBody (by rfl) (by rfl) sub3 (by rfl) rfl 995 rfl (now0 + 48) (by decide)
    (by rfl)

/-- The ids of the joined rows form a sublist of the subscription ids. -/
lemma filterMap_joinTier_ids_sublist (tiers : List Tier) :
    ∀ l : List Subscription,
      ((l.filterMap (joinTier tiers)).map SubscriptionRow.id).Sublist
        (l.map Subscription.id) := by
  intro l
  induction l with
  | nil => simp
  | cons a t ih =>
    cases hj : joinTier tiers a with
    | none =>
      simp only [List.filterMap_cons, hj, List.map_cons]
      exact ih.cons a.id
    | some r =>
      have hid : r.id = a.id := (joinTier_fields hj).1
      simp only [List.filterMap_cons, hj, List.map_cons, hid]
      exact ih.cons₂ a.id

/-- C8: `get_due_subscriptions` returns exactly the subscriptions with
status `ACTIVE`, `auto_renew` set, `current_period_end` at or before now and
a non-null token (given referential integrity of `tier_id`), sorted by
`current_period_end` ascending; and when subscription ids are unique, no id
appears twice in one result set. -/
theorem C8_due_queue_exact (db : DB) (now : Int)
    (hRI : ∀ s ∈ db.subscriptions,
      (db.tiers.find? (fun t => t.id == s.tier_id)).isSome = true)
    (hnd : (db.subscriptions.map Subscription.id).Nodup) :
    (∀ r ∈ get_due_subscriptions db now,
      r.status = "ACTIVE" ∧ r.auto_renew = true ∧ r.current_period_end ≤ now ∧
      r.netopia_token.isSome = true ∧
      ∃ s ∈ db.subscriptions, joinTier db.tiers s = some r) ∧
    (∀ s ∈ db.subscriptions,
      s.status = "ACTIVE" → s.auto_renew = true → s.current_period_end ≤ now →
      s.netopia_token.isSome = true →
      ∃ r ∈ get_due_subscriptions db now, r.id = s.id) ∧
    List.Sorted dueLE (get_due_subscriptions db now) ∧
    ((get_due_subscriptions db now).map SubscriptionRow.id).Nodup := by
  refine ⟨?_, ?_, ?_, ?_⟩
  · intro r hr
    rw [get_due_subscriptions, List.mem_insertionSort] at hr
    obtain ⟨hmem, hpred⟩ := List.mem_filter.mp hr
    obtain ⟨s, hs, hj⟩ := List.mem_filterMap.mp hmem
    simp only [duePred, Bool.and_eq_true, beq_iff_eq, decide_eq_true_eq] at hpred
    exact ⟨hpred.1.1.1, hpred.1.1.2, hpred.1.2, hpred.2, s, hs, hj⟩
  · intro s hs h1 h2 h3 h4
    obtain ⟨t, ht⟩ := Option.isSome_iff_exists.mp (hRI s hs)
    have hj : joinTier db.tiers s =
        some { id := s.id, user_id := s.user_id, tier_id := s.tier_id,
               status := s.status, netopia_token := s.netopia_token,
               auto_renew := s.auto_renew,
               current_period_start := s.current_period_start,
               current_period_end := s.current_period_end,
               trial_end := s.trial_end, price := t.price,
               currency := t.currency, interval := t.interval,
               tier_name := t.name } := by
      unfold joinTier
      rw [ht]
    refine ⟨{ id := s.id, user_id := s.user_id, tier_id := s.tier_id,
              status := s.status, netopia_token := s.netopia_token,
              auto_renew := s.auto_renew,
              current_period_start := s.current_period_start,
              current_period_end := s.current_period_end,
              trial_end := s.trial_end, price := t.price,
              currency := t.currency, interval := t.interval,
              tier_name := t.name }, ?_, rfl⟩
    rw [get_due_subscriptions, List.mem_insertionSort]
    refine List.mem_filter.mpr ⟨List.mem_filterMap.mpr ⟨s, hs, hj⟩, ?_⟩
    simp [duePred, h1, h2, h3, h4]
  · exact List.sorted_insertionSort dueLE _
  · have h1 : (((db.subscriptions.filterMap (joinTier db.tiers)).filter
        (duePred now)).map SubscriptionRow.id).Sublist
        ((db.subscriptions.filterMap (joinTier db.tiers)).map SubscriptionRow.id) :=
      (List.filter_sublist _).map _
    have h2 := filterMap_joinTier_ids_sublist db.tiers db.subscriptions
    have h3 := (h1.trans h2).nodup hnd
    have hperm := (List.perm_insertionSort dueLE
      ((db.subscriptions.filterMap (joinTier db.tiers)).filter
        (duePred now))).map SubscriptionRow.id
    exact hperm.nodup_iff.mpr h3

/-- Witness for C8 at the fixture: the due `sub_1` is selected. -/
theorem C8_witness : ∃ r ∈ get_due_subscriptions db0 now0, r.id = "sub_1" :=
  (C8_due_queue_exact db0 now0 (by decide) (by decide)).2.1 sub1 (by decide)
    rfl rfl (by decide) rfl

/-- A log line that reports the spec's invocation summary would carry all
four outcome counters. -/
def mentionsSummaryCounts (m : String) : Bool :=
  strHas m "processed" && strHas m "succeeded" && strHas m "failed" &&
    strHas m "skipped"

/-- Folding a step whose log output only grows keeps the log growing. -/
lemma foldl_logs_append {α : Type} (step : St → α → St)
    (hstep : ∀ s a, ∃ L, (step s a).logs = s.logs ++ L) :
    ∀ (l : List α) (s : St), ∃ L, (l.foldl step s).logs = s.logs ++ L := by
  intro l
  induction l with
  | nil => intro s; exact ⟨[], by simp⟩
  | cons a t ih =>
    intro s
    obtain ⟨L1, h1⟩ := hstep s a
    obtain ⟨L2, h2⟩ := ih (step s a)
    exact ⟨L1 ++ L2, by simp [List.foldl_cons, h2, h1]⟩

/-- If the step always emits `msgOf a` and never erases log lines, the fold
emits `msgOf a` for every element of the list. -/
lemma foldl_logs_mem {α : Type} (step : St → α → St) (msgOf : α → String)
    (hstep : ∀ s a, ∃ L, (step s a).logs = s.logs ++ L)
    (hadd : ∀ s a, msgOf a ∈ (step s a).logs) :
    ∀ (l : List α) (s : St) (a : α), a ∈ l → msgOf a ∈ (l.foldl step s).logs := by
  intro l
  induction l with
  | nil => intro s a ha; cases ha
  | cons b t ih =>
    intro s a ha
    rcases List.mem_cons.mp ha with rfl | ha'
    · obtain ⟨L, hL⟩ := foldl_logs_append step hstep t (step s a)
      rw [List.foldl_cons, hL]
      exact List.mem_append.mpr (Or.inl (hadd s a))
    · rw [List.foldl_cons]
      exact ih (step s b) a ha'

/-- The billing loop body starts its log output with the processing line. -/
lemma billingStep_logs (now : Int) (gw : String → HttpBehavior) (st : St)
    (sub : SubscriptionRow) :
    ∃ L, (billingStep now gw st sub).logs =
      st.logs ++ ("Processing renewal for subscription " ++ sub.id) :: L := by
  unfold billingStep
  cases h : create_recurring_payment (gw (nextOrderIdStr st.db)) with
  | ok body =>
    rw [renewal_ok_eq st now sub gw body h]
    exact ⟨["Created renewal order " ++ nextOrderIdStr st.db,
            "Successfully processed renewal for subscription " ++ sub.id], by simp⟩
  | error e =>
    rw [renewal_error_eq st now sub gw e h]
    refine ⟨["Created renewal order " ++ nextOrderIdStr st.db,
             "Failed to process renewal for subscription " ++ sub.id ++ ": " ++ pyStr e,
             "Failed to process renewal for subscription " ++ sub.id ++ ": " ++ pyStr e],
      ?_⟩
    simp [logLine, appendEventSt]

/-- The trial loop body starts its log output with the processing line. -/
lemma process_trial_expiration_logs (st : St) (now : Int) (sub : SubscriptionRow)
    (gw : String → HttpBehavior) :
    ∃ L, (process_trial_expiration st now sub gw).logs =
      st.logs ++ ("Processing trial expiration for subscription " ++ sub.id) :: L := by
  unfold process_trial_expiration
  cases htok : pyFalsy sub.netopia_token with
  | true =>
    refine ⟨["Cancelled subscription " ++ sub.id ++ " - no payment method"], ?_⟩
    simp [htok, logLine, cancelSubscriptionSt]
  | false =>
    cases h : create_recurring_payment (gw (nextOrderIdStr st.db)) with
    | ok body =>
      simp only [Bool.false_eq_true, if_false]
      rw [renewal_ok_eq
        (logLine st ("Processing trial expiration for subscription " ++ sub.id))
        now sub gw body (by simpa [logLine] using h)]
      refine ⟨["Processing renewal for subscription " ++ sub.id,
               "Created renewal order " ++ nextOrderIdStr st.db,
               "Successfully processed renewal for subscription " ++ sub.id,
               "Successfully charged trial expiration for subscription " ++ sub.id],
        ?_⟩
      simp [htok, logLine]
    | error e =>
      simp only [Bool.false_eq_true, if_false]
      rw [renewal_error_eq
        (logLine st ("Processing trial expiration for subscription " ++ sub.id))
        now sub gw e (by simpa [logLine] using h)]
      refine ⟨["Processing renewal for subscription " ++ sub.id,
               "Created renewal order " ++ nextOrderIdStr st.db,
               "Failed to process renewal for subscription " ++ sub.id ++ ": " ++ pyStr e,
               "Cancelled subscription " ++ sub.id ++ " - charge failed"],
        ?_⟩
      simp [htok, logLine, cancelSubscriptionSt]

/-- The retry loop body's exact log output. -/
lemma retry_payment_logs (st : St) (now : Int) (p : FailedPaymentRow) :
    (retry_payment st now p).logs =
      st.logs ++
        [ "Retrying payment " ++ p.order_id ++ " (attempt " ++
            toString (p.retry_count + 1) ++ ")",
          "Retry attempt " ++ toString (p.retry_count + 1) ++ " for payment " ++
            p.order_id ] := by
  simp [retry_payment, logLine, appendEventSt]

/-- The billing phase appends to the log, starting with its header line. -/
lemma process_recurring_billing_logs (st : St) (now : Int)
    (gw : String → HttpBehavior) :
    ∃ L, (process_recurring_billing st now gw).logs =
      st.logs ++ "Processing recurring billing..." :: L := by
  obtain ⟨L, hL⟩ := foldl_logs_append (billingStep now gw)
    (fun s a => (billingStep_logs now gw s a).elim (fun L h => ⟨_, h⟩))
    (get_due_subscriptions st.db now)
    (logLine (logLine st "Processing recurring billing...")
      ("Found " ++ toString (get_due_subscriptions st.db now).length ++
        " subscriptions due for renewal"))
  refine ⟨("Found " ++ toString (get_due_subscriptions st.db now).length ++
    " subscriptions due for renewal") :: L, ?_⟩
  rw [process_recurring_billing, hL]
  simp [logLine]

/-- The trial phase appends to the log, starting with its header line. -/
lemma process_trial_periods_logs (st : St) (now : Int)
    (gw : String → HttpBehavior) :
    ∃ L, (process_trial_periods st now gw).logs =
      st.logs ++ "Processing trial period expirations..." :: L := by
  obtain ⟨L, hL⟩ := foldl_logs_append
    (fun acc sub => process_trial_expiration acc now sub gw)
    (fun s a => (process_trial_expiration_logs s now a gw).elim (fun L h => ⟨_, h⟩))
    (get_trial_subscriptions st.db now)
    (logLine (logLine st "Processing trial period expirations...")
      ("Found " ++ toString (get_trial_subscriptions st.db now).length ++
        " trial subscriptions to process"))
  refine ⟨("Found " ++ toString (get_trial_subscriptions st.db now).length ++
    " trial subscriptions to process") :: L, ?_⟩
  rw [process_trial_periods, hL]
  simp [logLine]

/-- The retry phase appends to the log, starting with its header line. -/
lemma process_payment_retries_logs (st : St) (now maxAttempts : Int) :
    ∃ L, (process_payment_retries st now maxAttempts).logs =
      st.logs ++ "Processing payment retries..." :: L := by
  obtain ⟨L, hL⟩ := foldl_logs_append (fun acc p => retry_payment acc now p)
    (fun s a => ⟨_, retry_payment_logs s now a⟩)
    (get_failed_payments st.db maxAttempts now)
    (logLine (logLine st "Processing payment retries...")
      ("Found " ++ toString (get_failed_payments st.db maxAttempts now).length ++
        " failed payments to retry"))
  refine ⟨("Found " ++ toString (get_failed_payments st.db maxAttempts now).length ++
    " failed payments to retry") :: L, ?_⟩
  rw [process_payment_retries, hL]
  simp [logLine]

/-- The element sitting at the concatenation point of an append. -/
lemma get?_append_cons (A : List String) (m : String) (B : List String) :
    (A ++ m :: B).get? A.length = some m := by
  rw [List.get?_append_right (Nat.le_refl _)]
  simp

/-- C5 counterexample: a full fixture invocation of `run_all_jobs` emits no
log line carrying the processed/succeeded/failed/skipped summary counters —
the invocation does not produce the claimed summary count. -/
theorem C5_counterexample_no_summary :
    ((run_all_jobs st0 now0 gwOk 3).logs.all
      (fun m => !(mentionsSummaryCounts m))) = true := by
  decide

/-- C5 as amended: `run_all_jobs` executes billing, then trials, then
retries, in that fixed order (the three phase headers appear at strictly
increasing log positions); every fetched work item is processed whatever
the gateway does (its per-item processing line is always emitted, so one
item's failure does not abort the batch); and the invocation ends with the
fixed completion line rather than a summary count. -/
theorem C5_amended_fixed_order_no_summary (st : St) (now : Int)
    (gw : String → HttpBehavior) (maxAttempts : Int) :
    (∃ i j k : Nat, i < j ∧ j < k ∧
      (run_all_jobs st now gw maxAttempts).logs.get? i =
        some "Processing recurring billing..." ∧
      (run_all_jobs st now gw maxAttempts).logs.get? j =
        some "Processing trial period expirations..." ∧
      (run_all_jobs st now gw maxAttempts).logs.get? k =
        some "Processing payment retries...") ∧
    (∀ sub ∈ get_due_subscriptions st.db now,
      ("Processing renewal for subscription " ++ sub.id) ∈
        (run_all_jobs st now gw maxAttempts).logs) ∧
    (∀ sub ∈ get_trial_subscriptions
        (process_recurring_billing
          (logLine st "Starting subscription cron jobs...") now gw).db now,
      ("Processing trial expiration for subscription " ++ sub.id) ∈
        (run_all_jobs st now gw maxAttempts).logs) ∧
    (∀ p ∈ get_failed_payments
        (process_trial_periods
          (process_recurring_billing
            (logLine st "Starting subscription cron jobs...") now gw) now gw).db
        maxAttempts now,
      ("Retrying payment " ++ p.order_id ++ " (attempt " ++
        toString (p.retry_count + 1) ++ ")") ∈
        (run_all_jobs st now gw maxAttempts).logs) ∧
    (run_all_jobs st now gw maxAttempts).logs.getLast? =
      some "All cron jobs completed successfully" := by
  obtain ⟨LB, hB⟩ := process_recurring_billing_logs
    (logLine st "Starting subscription cron jobs...") now gw
  obtain ⟨LT, hT⟩ := process_trial_periods_logs
    (process_recurring_billing
      (logLine st "Starting subscription cron jobs...") now gw) now gw
  obtain ⟨LR, hR⟩ := process_payment_retries_logs
    (process_trial_periods
      (process_recurring_billing
        (logLine st "Starting subscription cron jobs...") now gw) now gw)
    now maxAttempts
  have hrun : (run_all_jobs st now gw maxAttempts).logs =
      (process_payment_retries
        (process_trial_periods
          (process_recurring_billing
            (logLine st "Starting subscription cron jobs...") now gw) now gw)
        now maxAttempts).logs ++ ["All cron jobs completed successfully"] := by
    simp [run_all_jobs, logLine]
  refine ⟨?_, ?_, ?_, ?_, ?_⟩
  · refine ⟨(logLine st "Starting subscription cron jobs...").logs.length,
      (process_recurring_billing
        (logLine st "Starting subscription cron jobs...") now gw).logs.length,
      (process_trial_periods
        (process_recurring_billing
          (logLine st "Starting subscription cron jobs...") now gw) now gw).logs.length,
      ?_, ?_, ?_, ?_, ?_⟩
    · have h1 : (process_recurring_billing
          (logLine st "Starting subscription cron jobs...") now gw).logs.length =
          (logLine st "Starting subscription cron jobs...").logs.length +
            (LB.length + 1) := by
        rw [hB]; simp
      omega
    · have h1 : (process_trial_periods
          (process_recurring_billing
            (logLine st "Starting subscription cron jobs...") now gw) now gw).logs.length =
          (process_recurring_billing
            (logLine st "Starting subscription cron jobs...") now gw).logs.length +
            (LT.length + 1) := by
        rw [hT]; simp
      omega
    · have hfull : (run_all_jobs st now gw maxAttempts).logs =
          (logLine st "Starting subscription cron jobs...").logs ++
            "Processing recurring billing..." ::
              (LB ++ "Processing trial period expirations..." ::
                (LT ++ "Processing payment retries..." ::
                  (LR ++ ["All cron jobs completed successfully"]))) := by
        rw [hrun, hR, hT, hB]
        simp [List.append_assoc]
      rw [hfull]
      exact get?_append_cons _ _ _
    · have hfull : (run_all_jobs st now gw maxAttempts).logs =
          (process_recurring_billing
            (logLine st "Starting subscription cron jobs...") now gw).logs ++
            "Processing trial period expirations..." ::
              (LT ++ "Processing payment retries..." ::
                (LR ++ ["All cron jobs completed successfully"])) := by
        rw [hrun, hR, hT]
        simp [List.append_assoc]
      rw [hfull]
      exact get?_append_cons _ _ _
    · have hfull : (run_all_jobs st now gw maxAttempts).logs =
          (process_trial_periods
            (process_recurring_billing
              (logLine st "Starting subscription cron jobs...") now gw) now gw).logs ++
            "Processing payment retries..." ::
              (LR ++ ["All cron jobs completed successfully"]) := by
        rw [hrun, hR]
        simp [List.append_assoc]
      rw [hfull]
      exact get?_append_cons _ _ _
  · intro sub hsub
    have h1 : ("Processing renewal for subscription " ++ sub.id) ∈
        (process_recurring_billing
          (logLine st "Starting subscription cron jobs...") now gw).logs := by
      unfold process_recurring_billing
      refine foldl_logs_mem (billingStep now gw)
        (fun sub => "Processing renewal for subscription " ++ sub.id)
        (fun s a => (billingStep_logs now gw s a).elim (fun L h => ⟨_, h⟩))
        (fun s a => ?_) _ _ sub hsub
      obtain ⟨L, hL⟩ := billingStep_logs now gw s a
      rw [hL]
      simp
    rw [hrun]
    refine List.mem_append.mpr (Or.inl ?_)
    rw [hR]
    refine List.mem_append.mpr (Or.inl ?_)
    rw [hT]
    exact List.mem_append.mpr (Or.inl h1)
  · intro sub hsub
    have h1 : ("Processing trial expiration for subscription " ++ sub.id) ∈
        (process_trial_periods
          (process_recurring_billing
            (logLine st "Starting subscription cron jobs...") now gw) now gw).logs := by
      unfold process_trial_periods
      refine foldl_logs_mem (fun acc sub => process_trial_expiration acc now sub gw)
        (fun sub => "Processing trial expiration for subscription " ++ sub.id)
        (fun s a => (process_trial_expiration_logs s now a gw).elim (fun L h => ⟨_, h⟩))
        (fun s a => ?_) _ _ sub hsub
      obtain ⟨L, hL⟩ := process_trial_expiration_logs s now a gw
      rw [hL]
      simp
    rw [hrun]
    refine List.mem_append.mpr (Or.inl ?_)
    rw [hR]
    exact List.mem_append.mpr (Or.inl h1)
  · intro p hp
    have h1 : ("Retrying payment " ++ p.order_id ++ " (attempt " ++
        toString (p.retry_count + 1) ++ ")") ∈
        (process_payment_retries
          (process_trial_periods
            (process_recurring_billing
              (logLine st "Starting subscription cron jobs...") now gw) now gw)
          now maxAttempts).logs := by
      unfold process_payment_retries
      refine foldl_logs_mem (fun acc q => retry_payment acc now q)
        (fun q => "Retrying payment " ++ q.order_id ++ " (attempt " ++
          toString (q.retry_count + 1) ++ ")")
        (fun s a => ⟨_, retry_payment_logs s now a⟩)
        (fun s a => ?_) _ _ p hp
      rw [retry_payment_logs]
      simp
    rw [hrun]
    exact List.mem_append.mpr (Or.inl h1)
  · rw [hrun]
    simp

/-- Witness for C5's amended claim at the fixture: the due subscription
`sub_1` really is processed inside the combined run. -/
theorem C5_witness :
    ("Processing renewal for subscription " ++ "sub_1") ∈
      (run_all_jobs st0 now0 gwOk 3).logs :=
  (C5_amended_fixed_order_no_summary st0 now0 gwOk 3).2.1 sub1row (by decide)

end SubscriptionCron
